import Mathlib

/-!
# Status server (`src/app.js`): shallow embedding

The program is an Express application with two module-level constants
(`APP_POOL`, `RELEASE_ID`), two module-level mutable variables (`chaosMode`,
`chaosType`), one middleware and five route handlers.

Modelling choices:

* every handler body is synchronous, and Node runs handlers one at a time, so
  the server is a step function `handle : state → request → state × res`;
* the mutable `res` object is a record threaded through the middleware and
  the handler; a handler that returns without calling `res.json` leaves
  `body = none`, which is how "no response is ever sent" is observed;
* `new Date().toISOString()` is an input of the request (`now`);
* the framework's path matching is not part of `src/app.js`: a request
  carries the route the framework dispatches it to;
* header names are compared exactly (the program only uses fixed names);
* `res.setHeader` checks the value as Node does and throws on an illegal one; an
  exception escaping the middleware goes to the framework's error handler, and the
  matched route handler does not run.
-/

namespace StatusServer

/-! ## JavaScript values -/

/-- JavaScript values that flow through the program: parsed query values
(strings, arrays, objects) and the JSON bodies passed to `res.json`. -/
inductive JsVal where
  | null : JsVal
  | bool (b : Bool) : JsVal
  | str (s : String) : JsVal
  | arr (items : List JsVal) : JsVal
  | obj (fields : List (String × JsVal)) : JsVal

/-- JavaScript truthiness (`ToBoolean`) on the values above. -/
def JsVal.truthy : JsVal → Bool
  | .null => false
  | .bool b => b
  | .str s => !(s == "")
  | .arr _ => true
  | .obj _ => true

/-- The expression `v || d` where `v` may be `undefined` (`none`). -/
def jsOr (v : Option JsVal) (d : JsVal) : JsVal :=
  match v with
  | none => d
  | some x => if x.truthy then x else d

/-- The expression `v === s` for a string literal `s`. -/
def JsVal.strictEqStr (v : JsVal) (s : String) : Bool :=
  match v with
  | .str t => t == s
  | _ => false

/-- Property access on a JSON object body (`none` when absent or not an object). -/
def JsVal.get? (v : JsVal) (key : String) : Option JsVal :=
  match v with
  | .obj fields => fields.lookup key
  | _ => none

/-! ## Configuration (lines 4-6) -/

/-- The part of `process.env` the handlers depend on; `none` is an unset variable. -/
structure Env where
  APP_POOL : Option String
  RELEASE_ID : Option String

/-- The expression `process.env.X || d`: an environment value is a string or `undefined`. -/
def envOr (v : Option String) (d : String) : String :=
  match v with
  | none => d
  | some s => if s = "" then d else s

/-- The two module constants `APP_POOL` and `RELEASE_ID`. -/
structure Identity where
  APP_POOL : String
  RELEASE_ID : String

/-- Lines 5-6: the constants as computed at start-up. -/
def Identity.ofEnv (env : Env) : Identity :=
  { APP_POOL := envOr env.APP_POOL "unknown"
    RELEASE_ID := envOr env.RELEASE_ID "unknown" }

/-! ## Chaos state (lines 8-10) -/

/-- The module variables `chaosMode` and `chaosType`. -/
structure ChaosState where
  chaosMode : Bool
  chaosType : JsVal

/-- Lines 9-10: `chaosMode = false`, `chaosType = 'error'`. -/
def ChaosState.initial : ChaosState :=
  { chaosMode := false, chaosType := .str "error" }

/-! ## Requests and the response object -/

/-- The route the framework dispatches a request to. -/
inductive Route where
  | getRoot
  | getHealthz
  | getVersion
  | postChaosStart
  | postChaosStop
  | unmatched
  deriving DecidableEq, Repr

/-- What a handler can observe of a request, plus the clock reading `now`. -/
structure Request where
  route : Route
  method : String
  url : String
  mode : Option JsVal
  now : String

/-- The mutable `res` object: `body = none` while nothing has been sent. -/
structure Res where
  statusCode : Nat
  headers : List (String × String)
  body : Option JsVal

/-- A fresh response object: status 200, no headers, nothing sent. -/
def Res.fresh : Res :=
  { statusCode := 200, headers := [], body := none }

/-- Node's check on one character of a header value: legal are the tab and the
code units 0x20-0x7e and 0x80-0xff. -/
def validHeaderChar (c : Char) : Bool :=
  c.toNat == 9 || (32 ≤ c.toNat && c.toNat ≤ 126) || (128 ≤ c.toNat && c.toNat ≤ 255)

/-- Node's check on a whole header value. -/
def validHeaderValue (value : String) : Bool :=
  value.toList.all validHeaderChar

/-- The header store of `res`: a value set under a name replaces any earlier one. -/
def Res.storeHeader (res : Res) (name value : String) : Res :=
  { res with headers := (name, value) :: res.headers.filter (fun p => !(p.1 == name)) }

/-- Method `res.setHeader(name, value)`: stores the value when Node accepts it as
header content; otherwise it throws `ERR_INVALID_CHAR` (`none`) and `res` is untouched. -/
def Res.setHeader (res : Res) (name value : String) : Option Res :=
  if validHeaderValue value then some (res.storeHeader name value) else none

/-- Method `res.getHeader(name)`. -/
def Res.getHeader (res : Res) (name : String) : Option String :=
  res.headers.lookup name

/-- Method `res.status(code)`. -/
def Res.status (res : Res) (code : Nat) : Res :=
  { res with statusCode := code }

/-- Method `res.json(body)`: sets the content type when none is set and sends the body.
The content type is a fixed legal header value, so it is stored directly. -/
def Res.json (res : Res) (body : JsVal) : Res :=
  let res1 :=
    match res.getHeader "Content-Type" with
    | some _ => res
    | none => res.storeHeader "Content-Type" "application/json; charset=utf-8"
  { res1 with body := some body }

/-- A response as the server sends it. -/
structure Response where
  status : Nat
  headers : List (String × String)
  body : JsVal

/-- Optional whitespace around a header field value: space and tab. -/
def isOWS (c : Char) : Bool :=
  c.toNat == 32 || c.toNat == 9

/-- A header field value as a client parses it: leading and trailing whitespace is
not part of the value. -/
def trimOWS (value : String) : String :=
  String.mk ((value.toList.dropWhile isOWS).reverse.dropWhile isOWS).reverse

/-- Header lookup as the client of a sent response reads it. -/
def Response.header (r : Response) (name : String) : Option String :=
  (r.headers.lookup name).map trimOWS

/-- The response the client receives, if the handler sent one. -/
def Res.toResponse (res : Res) : Option Response :=
  match res.body with
  | none => none
  | some b => some { status := res.statusCode, headers := res.headers, body := b }

/-! ## Middleware and handlers -/

/-- How a middleware run ends: it reached `next()`, or an exception escaped it;
either way `res` is as the middleware left it. -/
inductive MiddlewareResult where
  | next (res : Res)
  | threw (res : Res)

/-- Lines 13-17: the header middleware. Line 14 or line 15 may throw; `next()` on
line 16 is reached only when both headers were set. -/
def middleware (cfg : Identity) (res : Res) : MiddlewareResult :=
  match res.setHeader "X-App-Pool" cfg.APP_POOL with
  | none => .threw res
  | some res1 =>
    match res1.setHeader "X-Release-Id" cfg.RELEASE_ID with
    | none => .threw res1
    | some res2 => .next res2

/-- Lines 20-37: `GET /`. -/
def getRoot (cfg : Identity) (st : ChaosState) (now : String) (res : Res) : ChaosState × Res :=
  let status : JsVal :=
    .obj [ ("service", .str "Blue/Green Deployment"),
           ("pool", .str cfg.APP_POOL),
           ("releaseId", .str cfg.RELEASE_ID),
           ("status", .str (if st.chaosMode then "chaos" else "healthy")),
           ("chaosMode", .bool st.chaosMode),
           ("chaosType", if st.chaosMode then st.chaosType else .null),
           ("timestamp", .str now),
           ("endpoints", .obj [ ("version", .str "/version"),
                                ("health", .str "/healthz"),
                                ("chaos", .str "/chaos/start and /chaos/stop") ]) ]
  (st, res.json status)

/-- Lines 40-42: `GET /healthz`. -/
def getHealthz (cfg : Identity) (st : ChaosState) (res : Res) : ChaosState × Res :=
  (st, (res.status 200).json (.obj [("status", .str "healthy"), ("pool", .str cfg.APP_POOL)]))

/-- Lines 45-61: `GET /version`. -/
def getVersion (cfg : Identity) (st : ChaosState) (now : String) (res : Res) : ChaosState × Res :=
  if st.chaosMode && st.chaosType.strictEqStr "error" then
    (st, (res.status 500).json (.obj [("error", .str "Chaos mode: server error")]))
  else if st.chaosMode && st.chaosType.strictEqStr "timeout" then
    (st, res)
  else
    (st, res.json (.obj [ ("version", .str "1.0.0"),
                          ("pool", .str cfg.APP_POOL),
                          ("releaseId", .str cfg.RELEASE_ID),
                          ("timestamp", .str now) ]))

/-- Lines 64-73: `POST /chaos/start`; `query` is `req.query.mode`. -/
def chaosStart (cfg : Identity) (_st : ChaosState) (query : Option JsVal) (res : Res) :
    ChaosState × Res :=
  let mode := jsOr query (.str "error")
  ({ chaosMode := true, chaosType := mode },
   res.json (.obj [ ("message", .str "Chaos mode started"),
                    ("mode", mode),
                    ("pool", .str cfg.APP_POOL) ]))

/-- Lines 75-82: `POST /chaos/stop`. -/
def chaosStop (cfg : Identity) (_st : ChaosState) (res : Res) : ChaosState × Res :=
  ({ chaosMode := false, chaosType := .str "error" },
   res.json (.obj [ ("message", .str "Chaos mode stopped"),
                    ("pool", .str cfg.APP_POOL) ]))

/-- Modelled from the spec: the host framework's fallback for a request no route
matches is not in `src/app.js`; per the spec it answers with status 404 and a body
of unspecified format (here the framework's plain "Cannot METHOD url" text). It
runs after the middleware and keeps the headers already set on `res`. -/
def notFound (st : ChaosState) (req : Request) (res : Res) : ChaosState × Res :=
  (st, { (res.status 404) with body := some (.str ("Cannot " ++ req.method ++ " " ++ req.url)) })

/-- The host framework's default error handler, which is not in `src/app.js` and
which the spec does not describe: an exception escaping the middleware is answered
with status 500 and an HTML error page (here its title text); no route handler runs,
so the chaos state is untouched, and headers already set on `res` are kept. -/
def errorHandler (st : ChaosState) (res : Res) : ChaosState × Res :=
  (st, { ((res.status 500).storeHeader "Content-Type" "text/html; charset=utf-8") with
          body := some (.str "Internal Server Error") })

/-- The router: the handler of the matched route, or the not-found fallback. -/
def dispatch (cfg : Identity) (st : ChaosState) (req : Request) (res : Res) :
    ChaosState × Res :=
  match req.route with
  | .getRoot => getRoot cfg st req.now res
  | .getHealthz => getHealthz cfg st res
  | .getVersion => getVersion cfg st req.now res
  | .postChaosStart => chaosStart cfg st req.mode res
  | .postChaosStop => chaosStop cfg st res
  | .unmatched => notFound st req res

/-- One request through the application: the middleware first; when it reaches
`next()` the matched handler runs, when it throws the error handler answers. -/
def handle (cfg : Identity) (st : ChaosState) (req : Request) : ChaosState × Res :=
  match middleware cfg Res.fresh with
  | .threw res => errorHandler st res
  | .next res => dispatch cfg st req res

/-- The chaos state after a request. -/
def step (cfg : Identity) (st : ChaosState) (req : Request) : ChaosState :=
  (handle cfg st req).1

/-- The response a request receives (`none`: the handler never answers). -/
def respond (cfg : Identity) (st : ChaosState) (req : Request) : Option Response :=
  (handle cfg st req).2.toResponse

/-- The chaos state after a sequence of requests handled in order. -/
def run (cfg : Identity) (st : ChaosState) (reqs : List Request) : ChaosState :=
  reqs.foldl (step cfg) st

/-! ## Request builders -/

/-- Request `GET /` at clock reading `now`. -/
def Request.root (now : String) : Request :=
  { route := .getRoot, method := "GET", url := "/", mode := none, now := now }

/-- Request `GET /healthz`. -/
def Request.healthz (now : String) : Request :=
  { route := .getHealthz, method := "GET", url := "/healthz", mode := none, now := now }

/-- Request `GET /version`. -/
def Request.version (now : String) : Request :=
  { route := .getVersion, method := "GET", url := "/version", mode := none, now := now }

/-- Request `POST /chaos/start` with `req.query.mode = query`. -/
def Request.start (query : Option JsVal) (now : String) : Request :=
  { route := .postChaosStart, method := "POST", url := "/chaos/start", mode := query, now := now }

/-- Request `POST /chaos/stop`. -/
def Request.stop (now : String) : Request :=
  { route := .postChaosStop, method := "POST", url := "/chaos/stop", mode := none, now := now }

/-- The headers every JSON response of the application carries. -/
def jsonHeaders (cfg : Identity) : List (String × String) :=
  [ ("Content-Type", "application/json; charset=utf-8"),
    ("X-Release-Id", cfg.RELEASE_ID),
    ("X-App-Pool", cfg.APP_POOL) ]

/-- The identity used in concrete evaluations. -/
def blue : Identity :=
  { APP_POOL := "blue", RELEASE_ID := "r1" }

/-- The headers on `res` once the middleware has run to `next()`. -/
def identityHeaders (cfg : Identity) : List (String × String) :=
  [ ("X-Release-Id", cfg.RELEASE_ID), ("X-App-Pool", cfg.APP_POOL) ]

/-- The identity is legal header content: Node accepts both values in `res.setHeader`. -/
def Identity.headerSafe (cfg : Identity) : Bool :=
  validHeaderValue cfg.APP_POOL && validHeaderValue cfg.RELEASE_ID

/-- The `res` object a route handler receives when the middleware reached `next()`. -/
def Res.afterMiddleware (cfg : Identity) : Res :=
  { statusCode := 200, headers := identityHeaders cfg, body := none }

/-- An identity whose pool Node rejects as header content. -/
def lan : Identity :=
  { APP_POOL := "蓝", RELEASE_ID := "r1" }

/-- The success body of `GET /version`. -/
def versionBody (cfg : Identity) (now : String) : JsVal :=
  .obj [ ("version", .str "1.0.0"), ("pool", .str cfg.APP_POOL),
         ("releaseId", .str cfg.RELEASE_ID), ("timestamp", .str now) ]

/-! ## Helper lemmas -/

theorem blue_headerSafe : blue.headerSafe = true := by decide

theorem lan_not_headerSafe : lan.headerSafe = false := by decide

/-- With a legal identity the middleware sets both headers and reaches `next()`. -/
theorem middleware_of_headerSafe (cfg : Identity) (hs : cfg.headerSafe = true) :
    middleware cfg Res.fresh = .next (Res.afterMiddleware cfg) := by
  have h2 : validHeaderValue cfg.APP_POOL = true ∧ validHeaderValue cfg.RELEASE_ID = true := by
    simpa [Identity.headerSafe] using hs
  simp only [middleware, Res.setHeader, h2.1, h2.2, if_true]
  rfl

theorem handle_of_headerSafe (cfg : Identity) (hs : cfg.headerSafe = true) (st : ChaosState)
    (req : Request) :
    handle cfg st req = dispatch cfg st req (Res.afterMiddleware cfg) := by
  unfold handle
  rw [middleware_of_headerSafe cfg hs]

theorem step_of_headerSafe (cfg : Identity) (hs : cfg.headerSafe = true) (st : ChaosState)
    (req : Request) :
    step cfg st req = (dispatch cfg st req (Res.afterMiddleware cfg)).1 := by
  unfold step
  rw [handle_of_headerSafe cfg hs]

theorem respond_of_headerSafe (cfg : Identity) (hs : cfg.headerSafe = true) (st : ChaosState)
    (req : Request) :
    respond cfg st req = (dispatch cfg st req (Res.afterMiddleware cfg)).2.toResponse := by
  unfold respond
  rw [handle_of_headerSafe cfg hs]

theorem getVersion_fst (cfg : Identity) (st : ChaosState) (now : String) (res : Res) :
    (getVersion cfg st now res).1 = st := by
  unfold getVersion
  split
  · rfl
  · split <;> rfl

/-- The state transition of the router, by route. -/
theorem dispatch_fst (cfg : Identity) (st : ChaosState) (req : Request) (res : Res) :
    (dispatch cfg st req res).1 =
      match req.route with
      | .postChaosStart => { chaosMode := true, chaosType := jsOr req.mode (.str "error") }
      | .postChaosStop => { chaosMode := false, chaosType := .str "error" }
      | _ => st := by
  unfold dispatch
  cases req.route
  · rfl
  · rfl
  · exact getVersion_fst cfg st req.now _
  · rfl
  · rfl
  · rfl

/-- The state transition of one request: nothing, or what the router did. -/
theorem step_eq (cfg : Identity) (st : ChaosState) (req : Request) :
    step cfg st req = st ∨
      step cfg st req =
        match req.route with
        | .postChaosStart => { chaosMode := true, chaosType := jsOr req.mode (.str "error") }
        | .postChaosStop => { chaosMode := false, chaosType := .str "error" }
        | _ => st := by
  unfold step handle
  cases middleware cfg Res.fresh with
  | threw res => exact Or.inl rfl
  | next res => exact Or.inr (dispatch_fst cfg st req res)

theorem jsOr_truthy (q : Option JsVal) (d : JsVal) (hd : d.truthy = true) :
    (jsOr q d).truthy = true := by
  unfold jsOr
  cases q with
  | none => exact hd
  | some x =>
    by_cases hx : x.truthy = true
    · simp [hx]
    · simp [hx, hd]

theorem jsOr_str_of_ne_empty (s : String) (d : JsVal) (h : s ≠ "") :
    jsOr (some (.str s)) d = .str s := by
  simp [jsOr, JsVal.truthy, h]

theorem strictEqStr_eq_false (v : JsVal) (s : String) (h : v ≠ .str s) :
    v.strictEqStr s = false := by
  cases v with
  | str t =>
    have ht : t ≠ s := fun e => h (by rw [e])
    simp [JsVal.strictEqStr, ht]
  | null => rfl
  | bool b => rfl
  | arr xs => rfl
  | obj fs => rfl

/-- A property of the initial state kept by every request holds after any run. -/
theorem run_induction (cfg : Identity) (P : ChaosState → Prop)
    (hstep : ∀ s r, P s → P (step cfg s r)) :
    ∀ (reqs : List Request) (st : ChaosState), P st → P (run cfg st reqs) := by
  intro reqs
  induction reqs with
  | nil => intro st h; exact h
  | cons r rest ih => intro st h; exact ih (step cfg st r) (hstep st r h)

/-- After any run from the initial state: an enabled state has a truthy kind. -/
theorem run_enabled_truthy (cfg : Identity) (reqs : List Request) :
    (run cfg ChaosState.initial reqs).chaosMode = true →
      (run cfg ChaosState.initial reqs).chaosType.truthy = true := by
  refine run_induction cfg (fun s => s.chaosMode = true → s.chaosType.truthy = true)
    ?_ reqs ChaosState.initial (fun h => absurd h (by simp [ChaosState.initial]))
  intro s r hs
  rcases step_eq cfg s r with e | e
  · rw [e]
    exact hs
  · rw [e]
    cases r.route
    · exact hs
    · exact hs
    · exact hs
    · intro _
      exact jsOr_truthy _ _ rfl
    · intro h
      exact absurd h (by simp)
    · exact hs

/-- After any run from the initial state: a disabled state has kind "error". -/
theorem run_disabled_error (cfg : Identity) (reqs : List Request) :
    (run cfg ChaosState.initial reqs).chaosMode = false →
      (run cfg ChaosState.initial reqs).chaosType = .str "error" := by
  refine run_induction cfg (fun s => s.chaosMode = false → s.chaosType = .str "error")
    ?_ reqs ChaosState.initial (fun _ => rfl)
  intro s r hs
  rcases step_eq cfg s r with e | e
  · rw [e]
    exact hs
  · rw [e]
    cases r.route
    · exact hs
    · exact hs
    · exact hs
    · intro h
      exact absurd h (by simp)
    · intro _
      rfl
    · exact hs

/-- With a legal identity, the headers on `res` after any request are the identity
headers, with the JSON content type when a JSON body was sent. -/
theorem dispatch_headers (cfg : Identity) (st : ChaosState) (req : Request) :
    (dispatch cfg st req (Res.afterMiddleware cfg)).2.headers = jsonHeaders cfg
      ∨ (dispatch cfg st req (Res.afterMiddleware cfg)).2.headers = identityHeaders cfg := by
  unfold dispatch
  cases req.route
  · exact Or.inl rfl
  · exact Or.inl rfl
  · simp only [getVersion]
    split
    · exact Or.inl rfl
    · split
      · exact Or.inr rfl
      · exact Or.inl rfl
  · exact Or.inl rfl
  · exact Or.inl rfl
  · exact Or.inr rfl

theorem toResponse_headers {res : Res} {resp : Response} (h : res.toResponse = some resp) :
    resp.headers = res.headers := by
  unfold Res.toResponse at h
  split at h
  · exact absurd h (by simp)
  · simp only [Option.some.injEq] at h
    rw [← h]

/-- With a legal identity every response is sent with both identity headers set to
the configured values. -/
theorem sent_identity_headers_of_headerSafe (cfg : Identity) (hs : cfg.headerSafe = true)
    (st : ChaosState) (req : Request) (resp : Response) (h : respond cfg st req = some resp) :
    resp.headers.lookup "X-App-Pool" = some cfg.APP_POOL
      ∧ resp.headers.lookup "X-Release-Id" = some cfg.RELEASE_ID := by
  rw [respond_of_headerSafe cfg hs] at h
  rw [toResponse_headers h]
  rcases dispatch_headers cfg st req with e | e <;> rw [e] <;> exact ⟨rfl, rfl⟩

/-- A pool of one space is legal header content, and a client reads it as the empty
string. -/
theorem identity_header_whitespace_trimmed :
    (Identity.mk " " "r1").headerSafe = true
      ∧ (respond (Identity.mk " " "r1") ChaosState.initial (Request.healthz "T")).bind
          (fun r => r.header "X-App-Pool") = some "" := by
  decide

/-! ## Claims

Claims about what a route handler answers are stated for an identity that is legal
header content (`Identity.headerSafe`); for any other identity the middleware throws
before the handler runs, which is the subject of C6. -/

/-- C1: with an identity that is legal header content, from every chaos state, after
`POST /chaos/start?mode=error` the next `GET /version` answers with status 500 and the
body is exactly the object with the single field `error = "Chaos mode: server error"`;
it has no `version`, `pool` or `releaseId` field. -/
theorem version_after_start_error (cfg : Identity) (st : ChaosState) (t1 t2 : String)
    (hs : cfg.headerSafe = true) :
    respond cfg (step cfg st (Request.start (some (.str "error")) t1)) (Request.version t2)
        = some { status := 500, headers := jsonHeaders cfg,
                 body := .obj [("error", .str "Chaos mode: server error")] }
      ∧ (JsVal.obj [("error", .str "Chaos mode: server error")]).get? "version" = none
      ∧ (JsVal.obj [("error", .str "Chaos mode: server error")]).get? "pool" = none
      ∧ (JsVal.obj [("error", .str "Chaos mode: server error")]).get? "releaseId" = none := by
  simp only [step_of_headerSafe cfg hs, respond_of_headerSafe cfg hs]
  exact ⟨rfl, rfl, rfl, rfl⟩

theorem version_after_start_error_witness :
    blue.headerSafe = true
      ∧ respond blue (step blue ChaosState.initial (Request.start (some (.str "error")) "T"))
          (Request.version "T2")
        = some { status := 500, headers := jsonHeaders blue,
                 body := .obj [("error", .str "Chaos mode: server error")] } :=
  ⟨by decide,
   (version_after_start_error blue ChaosState.initial "T" "T2" (by decide)).1⟩

/-- C2: with an identity that is legal header content, in the initial state and in
every state whose `chaosMode` is false, `GET /version` answers with status 200 and the
body `version = "1.0.0"`, `pool = APP_POOL`, `releaseId = RELEASE_ID`,
`timestamp = now`. -/
theorem version_when_disabled (cfg : Identity) (st : ChaosState) (now : String)
    (hs : cfg.headerSafe = true) (h : st.chaosMode = false) :
    respond cfg ChaosState.initial (Request.version now)
        = some { status := 200, headers := jsonHeaders cfg, body := versionBody cfg now }
      ∧ respond cfg st (Request.version now)
        = some { status := 200, headers := jsonHeaders cfg, body := versionBody cfg now }
      ∧ (versionBody cfg now).get? "version" = some (.str "1.0.0")
      ∧ (versionBody cfg now).get? "pool" = some (.str cfg.APP_POOL)
      ∧ (versionBody cfg now).get? "releaseId" = some (.str cfg.RELEASE_ID) := by
  simp only [respond_of_headerSafe cfg hs]
  refine ⟨rfl, ?_, rfl, rfl, rfl⟩
  simp only [dispatch, Request.version, getVersion, h, Bool.false_and]
  rfl

theorem version_when_disabled_witness :
    blue.headerSafe = true
      ∧ (ChaosState.mk false (.str "timeout")).chaosMode = false
      ∧ respond blue (ChaosState.mk false (.str "timeout")) (Request.version "T")
        = some { status := 200, headers := jsonHeaders blue, body := versionBody blue "T" } :=
  ⟨by decide, rfl,
   (version_when_disabled blue (ChaosState.mk false (.str "timeout")) "T"
      (by decide) rfl).2.1⟩

/-- C3: with an identity that is legal header content, for every chaos state and
every request dispatched to `GET /healthz` the answer is status 200 with body
`status = "healthy"`, `pool = APP_POOL`; and for every identity, any two chaos states
(and any two such requests) get the same response. -/
theorem healthz_ignores_chaos (cfg : Identity) (st1 st2 : ChaosState) (r1 r2 : Request) :
    (cfg.headerSafe = true →
        respond cfg st1 { r1 with route := .getHealthz }
          = some { status := 200, headers := jsonHeaders cfg,
                   body := .obj [("status", .str "healthy"), ("pool", .str cfg.APP_POOL)] })
      ∧ respond cfg st1 { r1 with route := .getHealthz }
        = respond cfg st2 { r2 with route := .getHealthz } := by
  constructor
  · intro hs
    rw [respond_of_headerSafe cfg hs]
    rfl
  · unfold respond handle
    cases middleware cfg Res.fresh with
    | threw res => rfl
    | next res => rfl

theorem healthz_ignores_chaos_witness :
    blue.headerSafe = true
      ∧ respond blue (ChaosState.mk true (.str "timeout")) (Request.healthz "T")
        = some { status := 200, headers := jsonHeaders blue,
                 body := .obj [("status", .str "healthy"), ("pool", .str "blue")] } :=
  ⟨by decide,
   (healthz_ignores_chaos blue (ChaosState.mk true (.str "timeout")) ChaosState.initial
      (Request.healthz "T") (Request.healthz "T")).1 (by decide)⟩

/-- C4: with an identity that is legal header content, from every chaos state, after
`POST /chaos/stop` the state is `chaosMode = false`, `chaosType = "error"`; the next
`GET /version` is the 200 success response with version "1.0.0", and the next `GET /`
is a 200 whose body reports `status = "healthy"`, `chaosMode = false` and
`chaosType = null`. -/
theorem after_stop (cfg : Identity) (st : ChaosState) (t1 t2 t3 : String)
    (hs : cfg.headerSafe = true) :
    step cfg st (Request.stop t1) = { chaosMode := false, chaosType := .str "error" }
      ∧ respond cfg (step cfg st (Request.stop t1)) (Request.version t2)
        = some { status := 200, headers := jsonHeaders cfg, body := versionBody cfg t2 }
      ∧ (versionBody cfg t2).get? "version" = some (.str "1.0.0")
      ∧ ∃ body, respond cfg (step cfg st (Request.stop t1)) (Request.root t3)
            = some { status := 200, headers := jsonHeaders cfg, body := body }
          ∧ body.get? "status" = some (.str "healthy")
          ∧ body.get? "chaosMode" = some (.bool false)
          ∧ body.get? "chaosType" = some .null := by
  simp only [step_of_headerSafe cfg hs, respond_of_headerSafe cfg hs]
  exact ⟨rfl, rfl, rfl, _, rfl, rfl, rfl, rfl⟩

theorem after_stop_witness :
    blue.headerSafe = true
      ∧ step blue (ChaosState.mk true (.str "timeout")) (Request.stop "T")
        = { chaosMode := false, chaosType := .str "error" }
      ∧ respond blue (step blue (ChaosState.mk true (.str "timeout")) (Request.stop "T"))
          (Request.version "T2")
        = some { status := 200, headers := jsonHeaders blue, body := versionBody blue "T2" } :=
  ⟨by decide,
   (after_stop blue (ChaosState.mk true (.str "timeout")) "T" "T2" "T3" (by decide)).1,
   (after_stop blue (ChaosState.mk true (.str "timeout")) "T" "T2" "T3" (by decide)).2.1⟩

/-- C5: with an identity that is legal header content, from every chaos state, after
`POST /chaos/start?mode=timeout` the `GET /version` handler returns without sending
anything: `res.json` is never called, so the request gets no response (neither a 200
nor a 500), and the state is left as the start call set it. -/
theorem version_after_start_timeout (cfg : Identity) (st : ChaosState) (t1 t2 : String)
    (hs : cfg.headerSafe = true) :
    respond cfg (step cfg st (Request.start (some (.str "timeout")) t1)) (Request.version t2)
        = none
      ∧ (handle cfg (step cfg st (Request.start (some (.str "timeout")) t1))
          (Request.version t2)).2.body = none
      ∧ step cfg (step cfg st (Request.start (some (.str "timeout")) t1)) (Request.version t2)
        = { chaosMode := true, chaosType := .str "timeout" } := by
  simp only [step_of_headerSafe cfg hs, respond_of_headerSafe cfg hs,
    handle_of_headerSafe cfg hs]
  exact ⟨rfl, rfl, rfl⟩

theorem version_after_start_timeout_witness :
    blue.headerSafe = true
      ∧ respond blue (step blue ChaosState.initial (Request.start (some (.str "timeout")) "T"))
          (Request.version "T2")
        = none :=
  ⟨by decide,
   (version_after_start_timeout blue ChaosState.initial "T" "T2" (by decide)).1⟩

/-- C6 (the code at the failing input): with `APP_POOL` set to a value Node rejects
as header content, `res.setHeader` on line 14 throws, and the request (here
`GET /healthz`) does get a response, a 500, which carries neither `X-App-Pool` nor
`X-Release-Id`. -/
theorem identity_headers_missing_when_middleware_throws :
    (respond lan ChaosState.initial (Request.healthz "T")).map Response.status = some 500
      ∧ (respond lan ChaosState.initial (Request.healthz "T")).bind
          (fun r => r.header "X-App-Pool") = none
      ∧ (respond lan ChaosState.initial (Request.healthz "T")).bind
          (fun r => r.header "X-App-Pool") ≠ some lan.APP_POOL
      ∧ (respond lan ChaosState.initial (Request.healthz "T")).bind
          (fun r => r.header "X-Release-Id") = none := by
  refine ⟨rfl, rfl, ?_, rfl⟩
  have e : (respond lan ChaosState.initial (Request.healthz "T")).bind
      (fun r => r.header "X-App-Pool") = none := rfl
  rw [e]
  simp

/-- C7 (as stated, refuted): the empty string is a string value of `mode`
(`POST /chaos/start?mode=`), and it is replaced: the stored kind and the echoed
`mode` are "error", not the supplied "". -/
theorem start_empty_mode_replaced :
    step blue ChaosState.initial (Request.start (some (.str "")) "T")
        = { chaosMode := true, chaosType := .str "error" }
      ∧ step blue ChaosState.initial (Request.start (some (.str "")) "T")
        ≠ { chaosMode := true, chaosType := .str "" }
      ∧ respond blue ChaosState.initial (Request.start (some (.str "")) "T")
        = some { status := 200, headers := jsonHeaders blue,
                 body := .obj [ ("message", .str "Chaos mode started"),
                                ("mode", .str "error"),
                                ("pool", .str "blue") ] } := by
  refine ⟨rfl, ?_, rfl⟩
  intro h
  have h2 : (JsVal.str "error") = .str "" := congrArg ChaosState.chaosType h
  simp at h2

/-- C7 (amended): with an identity that is legal header content, for every non-empty
string `s` supplied as `mode`, from every chaos state `POST /chaos/start` answers 200
with body `message`, `mode = s`, `pool`, and leaves `chaosMode = true`,
`chaosType = s` verbatim; the empty string is treated like an absent parameter and
gives kind and echoed mode "error". -/
theorem start_nonempty_mode_verbatim (cfg : Identity) (st : ChaosState) (s now : String)
    (hs : cfg.headerSafe = true) (h : s ≠ "") :
    step cfg st (Request.start (some (.str s)) now) = { chaosMode := true, chaosType := .str s }
      ∧ respond cfg st (Request.start (some (.str s)) now)
        = some { status := 200, headers := jsonHeaders cfg,
                 body := .obj [ ("message", .str "Chaos mode started"),
                                ("mode", .str s),
                                ("pool", .str cfg.APP_POOL) ] }
      ∧ step cfg st (Request.start (some (.str "")) now)
        = { chaosMode := true, chaosType := .str "error" }
      ∧ respond cfg st (Request.start (some (.str "")) now)
        = some { status := 200, headers := jsonHeaders cfg,
                 body := .obj [ ("message", .str "Chaos mode started"),
                                ("mode", .str "error"),
                                ("pool", .str cfg.APP_POOL) ] } := by
  simp only [step_of_headerSafe cfg hs, respond_of_headerSafe cfg hs]
  refine ⟨?_, ?_, rfl, rfl⟩
  · simp only [dispatch, Request.start, chaosStart, jsOr_str_of_ne_empty s _ h]
  · simp only [dispatch, Request.start, chaosStart, jsOr_str_of_ne_empty s _ h]
    rfl

theorem start_nonempty_mode_verbatim_witness :
    blue.headerSafe = true
      ∧ "latency" ≠ ""
      ∧ step blue ChaosState.initial (Request.start (some (.str "latency")) "T")
        = { chaosMode := true, chaosType := .str "latency" }
      ∧ respond blue ChaosState.initial (Request.start (some (.str "latency")) "T")
        = some { status := 200, headers := jsonHeaders blue,
                 body := .obj [ ("message", .str "Chaos mode started"),
                                ("mode", .str "latency"),
                                ("pool", .str "blue") ] } :=
  ⟨by decide, by decide,
   (start_nonempty_mode_verbatim blue ChaosState.initial "latency" "T"
      (by decide) (by decide)).1,
   (start_nonempty_mode_verbatim blue ChaosState.initial "latency" "T"
      (by decide) (by decide)).2.1⟩

/-- C8: with an identity that is legal header content, from every chaos state,
`POST /chaos/start` without a `mode` query parameter sets `chaosMode = true`,
`chaosType = "error"`, echoes `mode = "error"` in its 200 body, and the next
`GET /version` answers with the 500 chaos error. -/
theorem start_default_mode (cfg : Identity) (st : ChaosState) (t1 t2 : String)
    (hs : cfg.headerSafe = true) :
    step cfg st (Request.start none t1) = { chaosMode := true, chaosType := .str "error" }
      ∧ respond cfg st (Request.start none t1)
        = some { status := 200, headers := jsonHeaders cfg,
                 body := .obj [ ("message", .str "Chaos mode started"),
                                ("mode", .str "error"),
                                ("pool", .str cfg.APP_POOL) ] }
      ∧ respond cfg (step cfg st (Request.start none t1)) (Request.version t2)
        = some { status := 500, headers := jsonHeaders cfg,
                 body := .obj [("error", .str "Chaos mode: server error")] } := by
  simp only [step_of_headerSafe cfg hs, respond_of_headerSafe cfg hs]
  exact ⟨rfl, rfl, rfl⟩

theorem start_default_mode_witness :
    blue.headerSafe = true
      ∧ step blue ChaosState.initial (Request.start none "T")
        = { chaosMode := true, chaosType := .str "error" }
      ∧ respond blue (step blue ChaosState.initial (Request.start none "T"))
          (Request.version "T2")
        = some { status := 500, headers := jsonHeaders blue,
                 body := .obj [("error", .str "Chaos mode: server error")] } :=
  ⟨by decide,
   (start_default_mode blue ChaosState.initial "T" "T2" (by decide)).1,
   (start_default_mode blue ChaosState.initial "T" "T2" (by decide)).2.2⟩

/-- C9: `POST /chaos/stop` is idempotent, for every identity. On the initial state it
changes nothing; on any state produced by a stop it changes nothing; from every state
a second stop gives the state and the response of the first. With an identity that is
legal header content that response is the 200 with body
`message = "Chaos mode stopped"`, `pool = APP_POOL`. -/
theorem stop_idempotent (cfg : Identity) (st : ChaosState) (t1 t2 : String) :
    step cfg ChaosState.initial (Request.stop t1) = ChaosState.initial
      ∧ step cfg (step cfg st (Request.stop t1)) (Request.stop t2)
        = step cfg st (Request.stop t1)
      ∧ respond cfg (step cfg st (Request.stop t1)) (Request.stop t2)
        = respond cfg st (Request.stop t1)
      ∧ respond cfg ChaosState.initial (Request.stop t2)
        = respond cfg st (Request.stop t1)
      ∧ (cfg.headerSafe = true →
          respond cfg st (Request.stop t1)
            = some { status := 200, headers := jsonHeaders cfg,
                     body := .obj [ ("message", .str "Chaos mode stopped"),
                                    ("pool", .str cfg.APP_POOL) ] }) := by
  refine ⟨?_, ?_, ?_, ?_, ?_⟩
  · unfold step handle
    cases middleware cfg Res.fresh <;> rfl
  · unfold step handle
    cases middleware cfg Res.fresh <;> rfl
  · unfold respond step handle
    cases middleware cfg Res.fresh <;> rfl
  · unfold respond handle
    cases middleware cfg Res.fresh <;> rfl
  · intro hs
    rw [respond_of_headerSafe cfg hs]
    rfl

theorem stop_idempotent_witness :
    blue.headerSafe = true
      ∧ respond blue (ChaosState.mk true (.str "timeout")) (Request.stop "T")
        = some { status := 200, headers := jsonHeaders blue,
                 body := .obj [ ("message", .str "Chaos mode stopped"),
                                ("pool", .str "blue") ] } :=
  ⟨by decide,
   (stop_idempotent blue (ChaosState.mk true (.str "timeout")) "T" "T2").2.2.2.2
      (by decide)⟩

/-- C10 (the code at the failing input): one `POST /chaos/start?mode=latency` from
the initial state reaches a state whose kind is "latency", which is neither "error"
nor "timeout". -/
theorem reachable_kind_outside_enum :
    run blue ChaosState.initial [Request.start (some (.str "latency")) "T"]
        = { chaosMode := true, chaosType := .str "latency" }
      ∧ (run blue ChaosState.initial
          [Request.start (some (.str "latency")) "T"]).chaosType ≠ .str "error"
      ∧ (run blue ChaosState.initial
          [Request.start (some (.str "latency")) "T"]).chaosType ≠ .str "timeout" := by
  refine ⟨rfl, ?_, ?_⟩
  · show (JsVal.str "latency") ≠ .str "error"
    simp
  · show (JsVal.str "latency") ≠ .str "timeout"
    simp

/-- C11: with an identity that is legal header content, for every chaos state
`GET /` answers 200 with a body whose `status` is "chaos" when `chaosMode` is true and
"healthy" otherwise, whose `chaosMode` is the flag, whose `chaosType` is the current
kind when enabled and `null` when disabled, and whose `pool` and `releaseId` are
`APP_POOL` and `RELEASE_ID`; after any sequence of requests from the initial state the
reported `chaosType` is `null` exactly when the reported `chaosMode` is false. -/
theorem root_reports_state (cfg : Identity) (st : ChaosState) (now : String)
    (reqs : List Request) (hs : cfg.headerSafe = true) :
    (∃ body, respond cfg st (Request.root now)
          = some { status := 200, headers := jsonHeaders cfg, body := body }
        ∧ body.get? "status" = some (.str (if st.chaosMode then "chaos" else "healthy"))
        ∧ body.get? "chaosMode" = some (.bool st.chaosMode)
        ∧ body.get? "chaosType" = some (if st.chaosMode then st.chaosType else .null)
        ∧ body.get? "pool" = some (.str cfg.APP_POOL)
        ∧ body.get? "releaseId" = some (.str cfg.RELEASE_ID))
      ∧ (∃ body, respond cfg (run cfg ChaosState.initial reqs) (Request.root now)
            = some { status := 200, headers := jsonHeaders cfg, body := body }
          ∧ (body.get? "chaosType" = some .null
              ↔ body.get? "chaosMode" = some (.bool false))) := by
  simp only [respond_of_headerSafe cfg hs]
  refine ⟨⟨_, rfl, rfl, rfl, rfl, rfl, rfl⟩, _, rfl, ?_⟩
  have ht := run_enabled_truthy cfg reqs
  generalize run cfg ChaosState.initial reqs = s at ht
  show some (if s.chaosMode then s.chaosType else JsVal.null) = some JsVal.null
    ↔ some (JsVal.bool s.chaosMode) = some (JsVal.bool false)
  cases hm : s.chaosMode with
  | false => simp
  | true =>
    have hk := ht hm
    have hne : s.chaosType ≠ JsVal.null := by
      intro e
      rw [e] at hk
      simp [JsVal.truthy] at hk
    simp [hne]

theorem root_reports_state_witness :
    blue.headerSafe = true
      ∧ ∃ body, respond blue (ChaosState.mk true (.str "timeout")) (Request.root "T")
            = some { status := 200, headers := jsonHeaders blue, body := body }
          ∧ body.get? "status" = some (.str "chaos")
          ∧ body.get? "chaosMode" = some (.bool true)
          ∧ body.get? "chaosType" = some (.str "timeout")
          ∧ body.get? "pool" = some (.str "blue")
          ∧ body.get? "releaseId" = some (.str "r1") :=
  ⟨by decide,
   (root_reports_state blue (ChaosState.mk true (.str "timeout")) "T" [] (by decide)).1⟩

/-- C12: for every identity, a request dispatched to anything but the two
chaos-control routes leaves `chaosMode` and `chaosType` as they were; in particular
`GET /`, `GET /healthz` and `GET /version` (500 branch, no-response branch and 200
branch alike) do. The identity constants are not part of what a handler can write:
with an identity that is legal header content, after any sequence of requests `GET /`
still reports `pool = APP_POOL` and `releaseId = RELEASE_ID`, and `GET /healthz` still
reports `pool = APP_POOL`. -/
theorem state_changed_only_by_chaos_control (cfg : Identity) (st : ChaosState) (req : Request)
    (reqs : List Request) (now : String)
    (h : req.route ≠ .postChaosStart ∧ req.route ≠ .postChaosStop) :
    step cfg st req = st
      ∧ step cfg st (Request.root now) = st
      ∧ step cfg st (Request.healthz now) = st
      ∧ step cfg st (Request.version now) = st
      ∧ (cfg.headerSafe = true →
          (∃ body, respond cfg (run cfg st reqs) (Request.root now)
                = some { status := 200, headers := jsonHeaders cfg, body := body }
              ∧ body.get? "pool" = some (.str cfg.APP_POOL)
              ∧ body.get? "releaseId" = some (.str cfg.RELEASE_ID))
            ∧ respond cfg (run cfg st reqs) (Request.healthz now)
              = some { status := 200, headers := jsonHeaders cfg,
                       body := .obj [ ("status", .str "healthy"),
                                      ("pool", .str cfg.APP_POOL) ] }) := by
  refine ⟨?_, ?_, ?_, ?_, ?_⟩
  · rcases step_eq cfg st req with e | e
    · exact e
    · rw [e]
      rcases h with ⟨h1, h2⟩
      cases hr : req.route
      · rfl
      · rfl
      · rfl
      · exact absurd hr h1
      · exact absurd hr h2
      · rfl
  · rcases step_eq cfg st (Request.root now) with e | e <;> exact e
  · rcases step_eq cfg st (Request.healthz now) with e | e <;> exact e
  · rcases step_eq cfg st (Request.version now) with e | e <;> exact e
  · intro hs
    simp only [respond_of_headerSafe cfg hs]
    exact ⟨⟨_, rfl, rfl, rfl⟩, rfl⟩

theorem state_changed_only_by_chaos_control_witness :
    ((Request.version "T").route ≠ .postChaosStart
        ∧ (Request.version "T").route ≠ .postChaosStop)
      ∧ step blue (ChaosState.mk true (.str "timeout")) (Request.version "T")
        = ChaosState.mk true (.str "timeout")
      ∧ blue.headerSafe = true
      ∧ respond blue
          (run blue ChaosState.initial [Request.start (some (.str "latency")) "T"])
          (Request.healthz "T")
        = some { status := 200, headers := jsonHeaders blue,
                 body := .obj [("status", .str "healthy"), ("pool", .str "blue")] } :=
  ⟨⟨by decide, by decide⟩,
   (state_changed_only_by_chaos_control blue (ChaosState.mk true (.str "timeout"))
      (Request.version "T") [] "T" ⟨by decide, by decide⟩).1,
   by decide,
   ((state_changed_only_by_chaos_control blue ChaosState.initial
      (Request.version "T") [Request.start (some (.str "latency")) "T"] "T"
      ⟨by decide, by decide⟩).2.2.2.2 (by decide)).2⟩

/-- C13 (as stated, refuted): with `APP_POOL` and `RELEASE_ID` both set to the empty
string, `pool` and `releaseId` are "unknown": they differ from the value the variable
is set to, and they are "unknown" although the variable is set. -/
theorem identity_of_empty_env_values :
    Identity.ofEnv { APP_POOL := some "", RELEASE_ID := some "" }
        = { APP_POOL := "unknown", RELEASE_ID := "unknown" }
      ∧ (Identity.ofEnv { APP_POOL := some "", RELEASE_ID := some "" }).APP_POOL ≠ ""
      ∧ (Identity.ofEnv { APP_POOL := some "", RELEASE_ID := some "" }).RELEASE_ID ≠ ""
      ∧ (Env.mk (some "") (some "")).APP_POOL ≠ none
      ∧ (Env.mk (some "") (some "")).RELEASE_ID ≠ none := by
  refine ⟨rfl, ?_, ?_, ?_, ?_⟩
  · show "unknown" ≠ ""
    decide
  · show "unknown" ≠ ""
    decide
  · simp
  · simp

/-- C13 (amended): `pool` equals the value of `APP_POOL` and `releaseId` the value
of `RELEASE_ID` whenever the variable is set to a non-empty string; each is "unknown"
when its variable is unset or set to the empty string, and is "unknown" exactly when
its variable is unset, empty, or set to the string "unknown" itself. -/
theorem identity_of_env (env : Env) (p r : String) (hp : p ≠ "") (hr : r ≠ "") :
    (Identity.ofEnv { env with APP_POOL := some p }).APP_POOL = p
      ∧ (Identity.ofEnv { env with RELEASE_ID := some r }).RELEASE_ID = r
      ∧ (Identity.ofEnv { env with APP_POOL := none }).APP_POOL = "unknown"
      ∧ (Identity.ofEnv { env with RELEASE_ID := none }).RELEASE_ID = "unknown"
      ∧ (Identity.ofEnv { env with APP_POOL := some "" }).APP_POOL = "unknown"
      ∧ (Identity.ofEnv { env with RELEASE_ID := some "" }).RELEASE_ID = "unknown"
      ∧ ((Identity.ofEnv env).APP_POOL = "unknown"
          ↔ env.APP_POOL = none ∨ env.APP_POOL = some "" ∨ env.APP_POOL = some "unknown")
      ∧ ((Identity.ofEnv env).RELEASE_ID = "unknown"
          ↔ env.RELEASE_ID = none ∨ env.RELEASE_ID = some ""
              ∨ env.RELEASE_ID = some "unknown") := by
  have key : ∀ v : Option String,
      envOr v "unknown" = "unknown" ↔ v = none ∨ v = some "" ∨ v = some "unknown" := by
    intro v
    cases v with
    | none => simp [envOr]
    | some s =>
      by_cases hs : s = ""
      · simp [envOr, hs]
      · simp [envOr, hs]
  refine ⟨?_, ?_, rfl, rfl, rfl, rfl, key _, key _⟩
  · simp [Identity.ofEnv, envOr, hp]
  · simp [Identity.ofEnv, envOr, hr]

theorem identity_of_env_witness :
    "blue" ≠ "" ∧ "r1" ≠ ""
      ∧ (Identity.ofEnv { APP_POOL := some "blue", RELEASE_ID := none }).APP_POOL = "blue"
      ∧ (Identity.ofEnv { APP_POOL := none, RELEASE_ID := some "r1" }).RELEASE_ID = "r1" :=
  ⟨by decide, by decide,
   (identity_of_env { APP_POOL := none, RELEASE_ID := none } "blue" "r1"
      (by decide) (by decide)).1,
   (identity_of_env { APP_POOL := none, RELEASE_ID := none } "blue" "r1"
      (by decide) (by decide)).2.1⟩

/-- C14: with an identity that is legal header content, `POST /chaos/start`
overwrites. For all states and all `mode` query values `m1`, `m2`, `m`: start(m1) then
start(m2) leaves the state of start(m2) alone; the state after start(m) is the same
from any two starting states; start(m) twice equals start(m) once; and the state after
a start always has `chaosMode = true`. -/
theorem start_overwrites (cfg : Identity) (st st2 : ChaosState) (m1 m2 m : Option JsVal)
    (t1 t2 : String) (hs : cfg.headerSafe = true) :
    step cfg (step cfg st (Request.start m1 t1)) (Request.start m2 t2)
        = step cfg st (Request.start m2 t2)
      ∧ step cfg st (Request.start m t1) = step cfg st2 (Request.start m t2)
      ∧ step cfg (step cfg st (Request.start m t1)) (Request.start m t2)
        = step cfg st (Request.start m t1)
      ∧ (step cfg st (Request.start m t1)).chaosMode = true := by
  simp only [step_of_headerSafe cfg hs]
  exact ⟨rfl, rfl, rfl, rfl⟩

theorem start_overwrites_witness :
    blue.headerSafe = true
      ∧ step blue
          (step blue ChaosState.initial (Request.start (some (.str "timeout")) "T"))
          (Request.start (some (.str "latency")) "T2")
        = step blue ChaosState.initial (Request.start (some (.str "latency")) "T2")
      ∧ (step blue ChaosState.initial (Request.start (some (.str "latency")) "T")).chaosMode
        = true :=
  ⟨by decide,
   (start_overwrites blue ChaosState.initial ChaosState.initial (some (.str "timeout"))
      (some (.str "latency")) (some (.str "latency")) "T" "T2" (by decide)).1,
   (start_overwrites blue ChaosState.initial ChaosState.initial (some (.str "timeout"))
      (some (.str "latency")) (some (.str "latency")) "T" "T2" (by decide)).2.2.2⟩

/-- C15: with an identity that is legal header content, in a state with
`chaosMode = true` and a kind that is neither "error" nor "timeout", `GET /version`
answers with the 200 success body (version "1.0.0"), the very response the same
request gets with chaos disabled, while `GET /` at that state reports
`status = "chaos"` and `chaosMode = true`. -/
theorem version_unaffected_by_unknown_kind (cfg : Identity) (st : ChaosState)
    (now t : String) (hs : cfg.headerSafe = true) (hm : st.chaosMode = true)
    (he : st.chaosType ≠ .str "error") (ht : st.chaosType ≠ .str "timeout") :
    respond cfg st (Request.version now)
        = some { status := 200, headers := jsonHeaders cfg, body := versionBody cfg now }
      ∧ (versionBody cfg now).get? "version" = some (.str "1.0.0")
      ∧ respond cfg st (Request.version now)
        = respond cfg { st with chaosMode := false } (Request.version now)
      ∧ ∃ body, respond cfg st (Request.root t)
            = some { status := 200, headers := jsonHeaders cfg, body := body }
          ∧ body.get? "status" = some (.str "chaos")
          ∧ body.get? "chaosMode" = some (.bool true) := by
  simp only [respond_of_headerSafe cfg hs]
  have hv : (dispatch cfg st (Request.version now) (Res.afterMiddleware cfg)).2.toResponse
      = some { status := 200, headers := jsonHeaders cfg, body := versionBody cfg now } := by
    simp only [dispatch, Request.version, getVersion, hm,
      strictEqStr_eq_false _ _ he, strictEqStr_eq_false _ _ ht]
    rfl
  refine ⟨hv, rfl, ?_, _, rfl, ?_, ?_⟩
  · rw [hv]
    rfl
  · show some (JsVal.str (if st.chaosMode then "chaos" else "healthy")) = _
    rw [hm]
    rfl
  · show some (JsVal.bool st.chaosMode) = _
    rw [hm]

theorem version_unaffected_by_unknown_kind_witness :
    blue.headerSafe = true
      ∧ (step blue ChaosState.initial (Request.start (some (.str "latency")) "T")).chaosMode
        = true
      ∧ respond blue (step blue ChaosState.initial (Request.start (some (.str "latency")) "T"))
          (Request.version "T2")
        = some { status := 200, headers := jsonHeaders blue, body := versionBody blue "T2" } :=
  ⟨by decide, rfl,
   (version_unaffected_by_unknown_kind blue
      (step blue ChaosState.initial (Request.start (some (.str "latency")) "T")) "T2" "T3"
      (by decide) rfl
      (by show (JsVal.str "latency") ≠ .str "error"; simp)
      (by show (JsVal.str "latency") ≠ .str "timeout"; simp)).1⟩

/-- C16: after any sequence of requests from the initial state, a state with
`chaosMode = false` has `chaosType = "error"`; so it is the initial state
`chaosMode = false`, `chaosType = "error"`, and no earlier started kind is retained. -/
theorem disabled_state_is_default (cfg : Identity) (reqs : List Request)
    (h : (run cfg ChaosState.initial reqs).chaosMode = false) :
    (run cfg ChaosState.initial reqs).chaosType = .str "error"
      ∧ run cfg ChaosState.initial reqs = ChaosState.initial := by
  have hk := run_disabled_error cfg reqs h
  refine ⟨hk, ?_⟩
  generalize run cfg ChaosState.initial reqs = s at h hk
  cases s with
  | mk m k =>
    simp only at h hk
    rw [h, hk]
    rfl

theorem disabled_state_is_default_witness :
    (run blue ChaosState.initial
        [Request.start (some (.str "latency")) "T", Request.stop "T2"]).chaosMode = false
      ∧ run blue ChaosState.initial
          [Request.start (some (.str "latency")) "T", Request.stop "T2"]
        = ChaosState.initial :=
  ⟨rfl,
   (disabled_state_is_default blue
      [Request.start (some (.str "latency")) "T", Request.stop "T2"] rfl).2⟩

end StatusServer
